import Mathlib

/-!
# Verification of the c10 CUDA wrapper layer (`c10/cuda/CUDAFunctions.h`)

A shallow embedding of the device-count / synchronization wrapper layer.
The header defines `WarningState`, `memcpy_and_sync` and `stream_synchronize`
inline; the remaining operations (`device_count`,
`device_count_ensure_non_zero`, `device_synchronize`,
`warn_or_error_on_sync`) and the status-check `C10_CUDA_CHECK` are only
declared there and their definitions are modelled from the specification.

The GPU runtime is an opaque collaborator: we model it as a record of
status codes (0 = success) plus a description-lookup function, and we
record every runtime invocation in an explicit trace so that "how many
runtime calls were made" is a provable statement.
-/

namespace C10Cuda

/-- `enum class SyncWarningLevel` from the header:
`L_DISABLED = 0, L_WARN, L_ERROR`. -/
inductive SyncWarningLevel where
  | L_DISABLED
  | L_WARN
  | L_ERROR
deriving DecidableEq, Repr

/-- `class WarningState`: holds exactly one `SyncWarningLevel`,
field initializer `sync_warning_level = SyncWarningLevel::L_DISABLED`. -/
structure WarningState where
  sync_warning_level : SyncWarningLevel := .L_DISABLED
deriving DecidableEq, Repr

/-- `WarningState::set_sync_warning_level`. -/
def WarningState.set_sync_warning_level (w : WarningState)
    (l : SyncWarningLevel) : WarningState :=
  { w with sync_warning_level := l }

/-- `WarningState::get_sync_warning_level`. -/
def WarningState.get_sync_warning_level (w : WarningState) :
    SyncWarningLevel :=
  w.sync_warning_level

/-- The errors this layer can raise, per the spec taxonomy (§7):
a translated runtime failure carrying the native status code and a
description; the "no devices" usage error; the escalated-sync error
raised by `warn_or_error_on_sync` under the strict policy. -/
inductive CudaError where
  | runtimeError (code : Nat) (msg : String)
  | noDevicesError (msg : String)
  | syncError (msg : String)
deriving DecidableEq, Repr

/-- One invocation of a consumed runtime capability; the trace of these
is how we count runtime calls. -/
inductive RuntimeCall where
  | getDeviceCount
  | memcpyAsync (dst src : Nat) (nbytes : Int) (kind : Nat) (stream : Nat)
  | memcpyWithStream (dst src : Nat) (nbytes : Int) (kind : Nat) (stream : Nat)
  | streamSynchronize (stream : Nat)
  | deviceSynchronize
deriving DecidableEq, Repr

/-- The opaque GPU runtime collaborator: the outcome of an enumeration
query (`.error c` = the query fails with status `c`, `.ok n` = it reports
`n` devices), the status code each synchronize/copy call would return
(0 = success), whether the combined copy-with-synchronization primitive
exists (the `HIP_VERSION >= 301` compile-time branch), and the external
status-description lookup. -/
structure Runtime where
  getDeviceCount : Except Nat Nat
  memcpyAsyncStatus : Nat
  memcpyWithStreamStatus : Nat
  streamSynchronizeStatus : Nat
  deviceSynchronizeStatus : Nat
  hasMemcpyWithStream : Bool
  describe : Nat → String

/-- The process-wide mutable state this layer owns: the `WarningState`
singleton, the memoized device count, plus instrumentation (the trace of
runtime calls, the number of `warn_or_error_on_sync` invocations, the
non-fatal diagnostics emitted). -/
structure SimState where
  warning : WarningState := {}
  deviceCountCache : Option Nat := none
  trace : List RuntimeCall := []
  hookCount : Nat := 0
  diagnostics : List String := []
deriving DecidableEq, Repr

/-- The fresh process state: default warning level, nothing cached,
nothing recorded. -/
def initState : SimState := {}

/-- Modelled from the spec: `C10_CUDA_CHECK` (declared via
`c10/cuda/CUDAException.h`, not part of the embedded source) — "given a
native status code, if it denotes success, do nothing (returns normally);
otherwise raise a RuntimeError carrying the code and a message obtained
from an external description-lookup collaborator" (§4.1). -/
def C10_CUDA_CHECK (describe : Nat → String) (status : Nat) :
    Except CudaError Unit :=
  if status = 0 then .ok ()
  else .error (.runtimeError status ("CUDA error: " ++ describe status))

/-- Modelled from the spec: `warn_or_error_on_sync` is declared in the
header but defined elsewhere — "inspects the current level and performs
the configured action: Disabled → no-op; Warn → emit a non-fatal
diagnostic and continue; Error → raise an error immediately" (§4.3).
Every invocation bumps the hook counter. -/
def warn_or_error_on_sync (s : SimState) :
    SimState × Except CudaError Unit :=
  let s1 := { s with hookCount := s.hookCount + 1 }
  match s1.warning.get_sync_warning_level with
  | .L_ERROR =>
      (s1, .error (.syncError "called a synchronizing CUDA operation"))
  | .L_WARN =>
      ({ s1 with
          diagnostics :=
            s1.diagnostics ++ ["Synchronization debug mode: sync call"] },
        .ok ())
  | .L_DISABLED => (s1, .ok ())

/-- Modelled from the spec: `device_count` is declared `noexcept` in the
header but defined elsewhere — "returns the cached device count. On first
call, queries the runtime; if that query itself fails, log a one-time
diagnostic and cache/return 0 rather than propagating an error.
Subsequent calls return the cached value without re-querying" (§4.2).
The return type `SimState × Nat` (no `Except`) embeds `noexcept`. -/
def device_count (rt : Runtime) (s : SimState) : SimState × Nat :=
  match s.deviceCountCache with
  | some n => (s, n)
  | none =>
      let s1 := { s with trace := s.trace ++ [RuntimeCall.getDeviceCount] }
      match rt.getDeviceCount with
      | .ok n => ({ s1 with deviceCountCache := some n }, n)
      | .error _ =>
          ({ s1 with
              deviceCountCache := some 0,
              diagnostics :=
                s1.diagnostics ++ ["device enumeration query failed"] },
            0)

/-- `device_count` called `n` times in sequence, collecting the results. -/
def device_count_runN (rt : Runtime) : Nat → SimState → SimState × List Nat
  | 0, s => (s, [])
  | n + 1, s =>
      let (s1, v) := device_count rt s
      let (s2, vs) := device_count_runN rt n s1
      (s2, v :: vs)

/-- Number of device-enumeration queries in a trace. -/
def countEnum (t : List RuntimeCall) : Nat :=
  t.countP (fun c => c = RuntimeCall.getDeviceCount)

/-- Modelled from the spec: `device_count_ensure_non_zero` is declared in
the header but defined elsewhere — "calls `device_count()`; if the result
is 0, raises a no-devices-available error (distinct from RuntimeError);
returns the count unchanged when positive" (§4.2, §8). -/
def device_count_ensure_non_zero (rt : Runtime) (s : SimState) :
    SimState × Except CudaError Nat :=
  let (s1, n) := device_count rt s
  if n = 0 then (s1, .error (.noDevicesError "No CUDA GPUs are available"))
  else (s1, .ok n)

/-- Modelled from the spec: `device_synchronize` is declared in the
header but defined elsewhere — "blocks until all outstanding work on the
current device completes; failure is translated and propagated. This
call does not go through the Warning State" (§4.2). -/
def device_synchronize (rt : Runtime) (s : SimState) :
    SimState × Except CudaError Unit :=
  let s1 := { s with trace := s.trace ++ [RuntimeCall.deviceSynchronize] }
  (s1, C10_CUDA_CHECK rt.describe rt.deviceSynchronizeStatus)

/-- `stream_synchronize` from the header: if the warning level is not
`L_DISABLED`, call `warn_or_error_on_sync()` (which may raise and abort);
then `C10_CUDA_CHECK(cudaStreamSynchronize(stream))`. -/
def stream_synchronize (rt : Runtime) (stream : Nat) (s : SimState) :
    SimState × Except CudaError Unit :=
  let (s1, r) :=
    if s.warning.get_sync_warning_level ≠ SyncWarningLevel.L_DISABLED then
      warn_or_error_on_sync s
    else (s, .ok ())
  match r with
  | .error e => (s1, .error e)
  | .ok () =>
      let s2 := { s1 with trace := s1.trace ++ [RuntimeCall.streamSynchronize stream] }
      (s2, C10_CUDA_CHECK rt.describe rt.streamSynchronizeStatus)

/-- `memcpy_and_sync` from the header: the same policy check; then either
the single combined `hipMemcpyWithStream` call (when the runtime has it,
the `HIP_VERSION >= 301` branch) or `cudaMemcpyAsync` followed by
`cudaStreamSynchronize`, each wrapped in `C10_CUDA_CHECK` so a failing
first call aborts before the second. -/
def memcpy_and_sync (rt : Runtime) (dst src : Nat) (nbytes : Int)
    (kind : Nat) (stream : Nat) (s : SimState) :
    SimState × Except CudaError Unit :=
  let (s1, r) :=
    if s.warning.get_sync_warning_level ≠ SyncWarningLevel.L_DISABLED then
      warn_or_error_on_sync s
    else (s, .ok ())
  match r with
  | .error e => (s1, .error e)
  | .ok () =>
      if rt.hasMemcpyWithStream then
        let s2 := { s1 with
          trace := s1.trace ++ [RuntimeCall.memcpyWithStream dst src nbytes kind stream] }
        (s2, C10_CUDA_CHECK rt.describe rt.memcpyWithStreamStatus)
      else
        let s2 := { s1 with
          trace := s1.trace ++ [RuntimeCall.memcpyAsync dst src nbytes kind stream] }
        match C10_CUDA_CHECK rt.describe rt.memcpyAsyncStatus with
        | .error e => (s2, .error e)
        | .ok () =>
            let s3 := { s2 with
              trace := s2.trace ++ [RuntimeCall.streamSynchronize stream] }
            (s3, C10_CUDA_CHECK rt.describe rt.streamSynchronizeStatus)

/-- A healthy simulated runtime: two devices, every call succeeds, no
combined copy-with-synchronization primitive. -/
def rtTwoDevices : Runtime where
  getDeviceCount := Except.ok 2
  memcpyAsyncStatus := 0
  memcpyWithStreamStatus := 0
  streamSynchronizeStatus := 0
  deviceSynchronizeStatus := 0
  hasMemcpyWithStream := false
  describe := fun c => toString c

/-- A broken simulated runtime: the enumeration query fails with status
35 and every other call fails with status 700. -/
def rtBroken : Runtime where
  getDeviceCount := Except.error 35
  memcpyAsyncStatus := 700
  memcpyWithStreamStatus := 700
  streamSynchronizeStatus := 700
  deviceSynchronizeStatus := 700
  hasMemcpyWithStream := false
  describe := fun c => toString c

/-- A fresh state whose warning level has been set to `L_ERROR`. -/
def errState : SimState := { warning := ⟨SyncWarningLevel.L_ERROR⟩ }

/-- A fresh state whose warning level has been set to `L_WARN`. -/
def warnState : SimState := { warning := ⟨SyncWarningLevel.L_WARN⟩ }

/-! ## Helper lemmas -/

/-- Once the count is cached, `device_count` is a pure read: it returns
the cached value and leaves the state untouched. -/
theorem device_count_cached (rt : Runtime) (s : SimState) (n : Nat)
    (h : s.deviceCountCache = some n) : device_count rt s = (s, n) := by
  simp [device_count, h]

/-- After any call to `device_count`, the cache holds the returned value. -/
theorem device_count_cache_set (rt : Runtime) (s : SimState) :
    ((device_count rt s).1).deviceCountCache = some (device_count rt s).2 := by
  unfold device_count
  cases h : s.deviceCountCache with
  | some n => simpa using h
  | none => cases hq : rt.getDeviceCount <;> simp

/-- Running `device_count` repeatedly from a state whose cache is set
changes nothing and returns the cached value every time. -/
theorem device_count_runN_cached (rt : Runtime) (k : Nat) (s : SimState)
    (n : Nat) (h : s.deviceCountCache = some n) :
    device_count_runN rt k s = (s, List.replicate k n) := by
  induction k with
  | zero => simp [device_count_runN]
  | succ k ih =>
      simp [device_count_runN, device_count_cached rt s n h, ih,
        List.replicate_succ]

/-- A single `device_count` call adds at most one enumeration query to
the trace. -/
theorem device_count_enum_le (rt : Runtime) (s : SimState) :
    countEnum ((device_count rt s).1).trace ≤ countEnum s.trace + 1 := by
  unfold device_count
  cases h : s.deviceCountCache with
  | some n => simp
  | none =>
      cases hq : rt.getDeviceCount <;>
        simp [countEnum, List.countP_append]

/-! ## Claim theorems -/

/-- C1: `device_count()` never raises an error to its caller: its
codomain is `SimState × Nat` (no error component, mirroring `noexcept`),
so it returns normally for every behaviour of the enumeration query; and
whenever the query is actually performed (cache empty) and fails, the
returned count is 0. -/
theorem device_count_never_raises_and_degrades_to_zero
    (rt : Runtime) (s : SimState) (c : Nat)
    (hcache : s.deviceCountCache = none)
    (hfail : rt.getDeviceCount = Except.error c) :
    (device_count rt s).2 = 0 ∧
      device_count rt s = ((device_count rt s).1, (device_count rt s).2) := by
  constructor
  · simp [device_count, hcache, hfail]
  · rfl

/-- C3: `device_count()` is memoized: over any number `N` of calls
against a fixed runtime, starting from a fresh cache and a trace holding
no enumeration query, every returned value equals the first one, and the
enumeration capability appears at most once in the final trace. -/
theorem device_count_memoized (rt : Runtime) (N : Nat) (s : SimState)
    (henum : countEnum s.trace = 0) :
    (∀ v ∈ (device_count_runN rt N s).2, v = (device_count rt s).2) ∧
      countEnum ((device_count_runN rt N s).1).trace ≤ 1 := by
  cases N with
  | zero => simp [device_count_runN, henum]
  | succ k =>
      have hset := device_count_cache_set rt s
      have hrun := device_count_runN_cached rt k (device_count rt s).1
        (device_count rt s).2 hset
      have hle := device_count_enum_le rt s
      constructor
      · intro v hv
        simp [device_count_runN, hrun] at hv
        rcases hv with hv | ⟨-, hv⟩ <;> exact hv
      · simp [device_count_runN, hrun]
        omega

/-- C4: `device_count_ensure_non_zero()` raises the no-devices error
(a constructor distinct from `runtimeError`) exactly when `device_count`
returns 0, and returns the count unchanged without raising when it is
positive. -/
theorem device_count_ensure_non_zero_spec (rt : Runtime) (s : SimState) :
    ((device_count rt s).2 = 0 →
      (device_count_ensure_non_zero rt s).2 =
        Except.error (CudaError.noDevicesError "No CUDA GPUs are available")) ∧
    (0 < (device_count rt s).2 →
      (device_count_ensure_non_zero rt s).2 =
        Except.ok (device_count rt s).2) ∧
    (∀ (m : String) (code : Nat) (msg : String),
      CudaError.noDevicesError m ≠ CudaError.runtimeError code msg) := by
  refine ⟨?_, ?_, ?_⟩
  · intro h0
    simp [device_count_ensure_non_zero, h0]
  · intro hpos
    simp [device_count_ensure_non_zero, Nat.pos_iff_ne_zero.mp hpos]
  · intro m code msg h
    cases h

/-- C10: the `WarningState` holds exactly one `SyncWarningLevel`, its
initial value (the field initializer) is `L_DISABLED`, and the accessors
round-trip: after `set_sync_warning_level l`, `get_sync_warning_level`
returns `l`, and the whole state is `⟨l⟩` — no other state exists to be
modified. -/
theorem warning_state_default_and_roundtrip :
    (({} : WarningState).get_sync_warning_level =
      SyncWarningLevel.L_DISABLED) ∧
    (∀ (w : WarningState) (l : SyncWarningLevel),
      (w.set_sync_warning_level l).get_sync_warning_level = l ∧
        w.set_sync_warning_level l = ⟨l⟩) := by
  refine ⟨rfl, fun w l => ⟨rfl, rfl⟩⟩

/-- C7: the error-translation check: a success status (0) returns
normally; every non-success status raises a `runtimeError` carrying
exactly that status code and a non-empty description. -/
theorem cuda_check_translates_status (describe : Nat → String)
    (status : Nat) :
    (status = 0 → C10_CUDA_CHECK describe status = Except.ok ()) ∧
    (status ≠ 0 →
      C10_CUDA_CHECK describe status =
        Except.error (CudaError.runtimeError status
          ("CUDA error: " ++ describe status)) ∧
      0 < ("CUDA error: " ++ describe status).length) := by
  refine ⟨fun h0 => by simp [C10_CUDA_CHECK, h0], fun hne => ⟨?_, ?_⟩⟩
  · simp [C10_CUDA_CHECK, hne]
  · rw [String.length_append]
    have h12 : 0 < "CUDA error: ".length := by decide
    omega

/-- C2: with the warning level set to `L_ERROR`, both `memcpy_and_sync`
and `stream_synchronize` raise the escalated-sync error from
`warn_or_error_on_sync` before any runtime call: the final state is the
initial one with only the hook counter bumped — in particular the
runtime-call trace is unchanged, so zero runtime calls were made. -/
theorem error_level_raises_before_runtime_call
    (rt : Runtime) (dst src : Nat) (nbytes : Int) (kind stream : Nat)
    (s : SimState)
    (h : s.warning.get_sync_warning_level = SyncWarningLevel.L_ERROR) :
    stream_synchronize rt stream s =
      ({ s with hookCount := s.hookCount + 1 },
        Except.error
          (CudaError.syncError "called a synchronizing CUDA operation")) ∧
    memcpy_and_sync rt dst src nbytes kind stream s =
      ({ s with hookCount := s.hookCount + 1 },
        Except.error
          (CudaError.syncError "called a synchronizing CUDA operation")) := by
  constructor <;>
    simp [stream_synchronize, memcpy_and_sync, warn_or_error_on_sync,
      WarningState.get_sync_warning_level] at h ⊢ <;>
    simp [h]

/-- C5: with the warning level `L_DISABLED`, neither `memcpy_and_sync`
nor `stream_synchronize` ever invokes `warn_or_error_on_sync`: the hook
invocation counter is unchanged by either call. -/
theorem disabled_level_never_invokes_hook
    (rt : Runtime) (dst src : Nat) (nbytes : Int) (kind stream : Nat)
    (s : SimState)
    (h : s.warning.get_sync_warning_level = SyncWarningLevel.L_DISABLED) :
    (stream_synchronize rt stream s).1.hookCount = s.hookCount ∧
    (memcpy_and_sync rt dst src nbytes kind stream s).1.hookCount
      = s.hookCount := by
  constructor
  · simp [stream_synchronize, h]
  · simp [memcpy_and_sync, h]
    by_cases hm : rt.hasMemcpyWithStream
    · simp [hm]
    · by_cases ha : rt.memcpyAsyncStatus = 0 <;>
        simp [hm, ha, C10_CUDA_CHECK]

/-- C6: with the warning level `L_WARN`, each of `stream_synchronize`
and `memcpy_and_sync` invokes the escalation hook exactly once, the
hook emits a non-fatal diagnostic and returns, the underlying runtime
synchronize/copy call is then still made (on either copy path), and
each operation completes successfully when the runtime succeeds. -/
theorem warn_level_fires_hook_and_completes
    (rt : Runtime) (dst src : Nat) (nbytes : Int) (kind stream : Nat)
    (s : SimState)
    (h : s.warning.get_sync_warning_level = SyncWarningLevel.L_WARN) :
    (stream_synchronize rt stream s).1.hookCount = s.hookCount + 1 ∧
    (stream_synchronize rt stream s).1.diagnostics =
      s.diagnostics ++ ["Synchronization debug mode: sync call"] ∧
    (stream_synchronize rt stream s).1.trace =
      s.trace ++ [RuntimeCall.streamSynchronize stream] ∧
    (rt.streamSynchronizeStatus = 0 →
      (stream_synchronize rt stream s).2 = Except.ok ()) ∧
    (memcpy_and_sync rt dst src nbytes kind stream s).1.hookCount
      = s.hookCount + 1 ∧
    (memcpy_and_sync rt dst src nbytes kind stream s).1.diagnostics =
      s.diagnostics ++ ["Synchronization debug mode: sync call"] ∧
    (rt.hasMemcpyWithStream = true →
      (memcpy_and_sync rt dst src nbytes kind stream s).1.trace =
        s.trace ++ [RuntimeCall.memcpyWithStream dst src nbytes kind stream] ∧
      (rt.memcpyWithStreamStatus = 0 →
        (memcpy_and_sync rt dst src nbytes kind stream s).2 =
          Except.ok ())) ∧
    (rt.hasMemcpyWithStream = false → rt.memcpyAsyncStatus = 0 →
      (memcpy_and_sync rt dst src nbytes kind stream s).1.trace =
        s.trace ++ [RuntimeCall.memcpyAsync dst src nbytes kind stream,
          RuntimeCall.streamSynchronize stream] ∧
      (rt.streamSynchronizeStatus = 0 →
        (memcpy_and_sync rt dst src nbytes kind stream s).2 =
          Except.ok ())) := by
  refine ⟨?_, ?_, ?_, ?_, ?_, ?_, ?_, ?_⟩
  · simp [stream_synchronize, warn_or_error_on_sync, h]
  · simp [stream_synchronize, warn_or_error_on_sync, h]
  · simp [stream_synchronize, warn_or_error_on_sync, h]
  · intro h0
    simp [stream_synchronize, warn_or_error_on_sync, h, C10_CUDA_CHECK, h0]
  · simp [memcpy_and_sync, warn_or_error_on_sync, h]
    by_cases hm : rt.hasMemcpyWithStream
    · simp [hm]
    · by_cases ha : rt.memcpyAsyncStatus = 0 <;>
        simp [hm, ha, C10_CUDA_CHECK]
  · simp [memcpy_and_sync, warn_or_error_on_sync, h]
    by_cases hm : rt.hasMemcpyWithStream
    · simp [hm]
    · by_cases ha : rt.memcpyAsyncStatus = 0 <;>
        simp [hm, ha, C10_CUDA_CHECK]
  · intro hm
    constructor
    · simp [memcpy_and_sync, warn_or_error_on_sync, h, hm]
    · intro h0
      simp [memcpy_and_sync, warn_or_error_on_sync, h, hm,
        C10_CUDA_CHECK, h0]
  · intro hm ha
    constructor
    · simp [memcpy_and_sync, warn_or_error_on_sync, h, hm, ha,
        C10_CUDA_CHECK]
    · intro h0
      simp [memcpy_and_sync, warn_or_error_on_sync, h, hm, ha,
        C10_CUDA_CHECK, h0]

/-- C8: once the policy check passes (level is not `L_ERROR`),
`memcpy_and_sync` issues: on a runtime with the combined
copy-with-synchronization primitive, that single runtime call; otherwise
the asynchronous copy followed by the stream synchronize, as two
sequential calls — unless the copy fails, in which case its failure is
translated and propagated immediately with no recovery (and no further
call). The result in every case is the translated status of the calls
made. -/
theorem memcpy_and_sync_call_pattern
    (rt : Runtime) (dst src : Nat) (nbytes : Int) (kind stream : Nat)
    (s : SimState)
    (h : s.warning.get_sync_warning_level ≠ SyncWarningLevel.L_ERROR) :
    (rt.hasMemcpyWithStream = true →
      (memcpy_and_sync rt dst src nbytes kind stream s).1.trace =
        s.trace ++ [RuntimeCall.memcpyWithStream dst src nbytes kind stream] ∧
      (memcpy_and_sync rt dst src nbytes kind stream s).2 =
        C10_CUDA_CHECK rt.describe rt.memcpyWithStreamStatus) ∧
    (rt.hasMemcpyWithStream = false → rt.memcpyAsyncStatus = 0 →
      (memcpy_and_sync rt dst src nbytes kind stream s).1.trace =
        s.trace ++ [RuntimeCall.memcpyAsync dst src nbytes kind stream,
          RuntimeCall.streamSynchronize stream] ∧
      (memcpy_and_sync rt dst src nbytes kind stream s).2 =
        C10_CUDA_CHECK rt.describe rt.streamSynchronizeStatus) ∧
    (rt.hasMemcpyWithStream = false → rt.memcpyAsyncStatus ≠ 0 →
      (memcpy_and_sync rt dst src nbytes kind stream s).1.trace =
        s.trace ++ [RuntimeCall.memcpyAsync dst src nbytes kind stream] ∧
      (memcpy_and_sync rt dst src nbytes kind stream s).2 =
        Except.error (CudaError.runtimeError rt.memcpyAsyncStatus
          ("CUDA error: " ++ rt.describe rt.memcpyAsyncStatus))) := by
  simp [WarningState.get_sync_warning_level] at h
  refine ⟨fun hm => ?_, fun hm ha => ?_, fun hm ha => ?_⟩ <;>
    cases hl : s.warning.sync_warning_level <;>
      first
      | exact absurd hl h
      | simp [memcpy_and_sync, warn_or_error_on_sync,
          WarningState.get_sync_warning_level, hl, hm, ha, C10_CUDA_CHECK]
      | simp [memcpy_and_sync, warn_or_error_on_sync,
          WarningState.get_sync_warning_level, hl, hm, C10_CUDA_CHECK]

/-- C9: `device_synchronize` never consults the Warning State and never
triggers the escalation hook: for every state (hence every warning
level, including `L_ERROR`) the hook counter and the warning state are
unchanged, the runtime device-wide synchronize call is made, and the
call succeeds when the runtime does. -/
theorem device_synchronize_bypasses_warning_state
    (rt : Runtime) (s : SimState) :
    (device_synchronize rt s).1.hookCount = s.hookCount ∧
    (device_synchronize rt s).1.warning = s.warning ∧
    (device_synchronize rt s).1.trace =
      s.trace ++ [RuntimeCall.deviceSynchronize] ∧
    (rt.deviceSynchronizeStatus = 0 →
      (device_synchronize rt s).2 = Except.ok ()) := by
  refine ⟨rfl, rfl, rfl, fun h0 => ?_⟩
  simp [device_synchronize, C10_CUDA_CHECK, h0]

/-! ## Witnesses: each claim theorem with hypotheses, instantiated at a
concrete runtime and state. -/

/-- C1 witness: the broken runtime, fresh state. -/
theorem device_count_never_raises_witness :
    initState.deviceCountCache = none ∧
      rtBroken.getDeviceCount = Except.error 35 ∧
      (device_count rtBroken initState).2 = 0 :=
  ⟨rfl, rfl,
    (device_count_never_raises_and_degrades_to_zero rtBroken initState 35
      rfl rfl).1⟩

/-- C3 witness: three calls against the two-device runtime. -/
theorem device_count_memoized_witness :
    countEnum initState.trace = 0 ∧
      countEnum ((device_count_runN rtTwoDevices 3 initState).1).trace ≤ 1 :=
  ⟨rfl, (device_count_memoized rtTwoDevices 3 initState rfl).2⟩

/-- C4 witness: the positive branch on the two-device runtime and the
zero branch on the broken runtime. -/
theorem device_count_ensure_non_zero_witness :
    (0 < (device_count rtTwoDevices initState).2 ∧
      (device_count_ensure_non_zero rtTwoDevices initState).2 =
        Except.ok (device_count rtTwoDevices initState).2) ∧
    ((device_count rtBroken initState).2 = 0 ∧
      (device_count_ensure_non_zero rtBroken initState).2 =
        Except.error
          (CudaError.noDevicesError "No CUDA GPUs are available")) :=
  ⟨⟨by decide,
      (device_count_ensure_non_zero_spec rtTwoDevices initState).2.1
        (by decide)⟩,
    ⟨rfl, (device_count_ensure_non_zero_spec rtBroken initState).1 rfl⟩⟩

/-- C2 witness: level `L_ERROR`, healthy runtime, stream 7. -/
theorem error_level_witness :
    errState.warning.get_sync_warning_level = SyncWarningLevel.L_ERROR ∧
      stream_synchronize rtTwoDevices 7 errState =
        ({ errState with hookCount := errState.hookCount + 1 },
          Except.error
            (CudaError.syncError "called a synchronizing CUDA operation")) :=
  ⟨rfl,
    (error_level_raises_before_runtime_call rtTwoDevices 1 2 64 0 7
      errState rfl).1⟩

/-- C5 witness: level `L_DISABLED` (the fresh state), healthy runtime. -/
theorem disabled_level_witness :
    initState.warning.get_sync_warning_level =
        SyncWarningLevel.L_DISABLED ∧
      (stream_synchronize rtTwoDevices 7 initState).1.hookCount =
        initState.hookCount ∧
      (memcpy_and_sync rtTwoDevices 1 2 64 0 7 initState).1.hookCount =
        initState.hookCount :=
  ⟨rfl,
    (disabled_level_never_invokes_hook rtTwoDevices 1 2 64 0 7 initState
      rfl).1,
    (disabled_level_never_invokes_hook rtTwoDevices 1 2 64 0 7 initState
      rfl).2⟩

/-- C6 witness: level `L_WARN`, healthy runtime: the hook fires once for
each operation, and both the stream synchronize and the copy still
complete successfully. -/
theorem warn_level_witness :
    warnState.warning.get_sync_warning_level = SyncWarningLevel.L_WARN ∧
      rtTwoDevices.streamSynchronizeStatus = 0 ∧
      (stream_synchronize rtTwoDevices 7 warnState).1.hookCount =
        warnState.hookCount + 1 ∧
      (stream_synchronize rtTwoDevices 7 warnState).2 = Except.ok () ∧
      rtTwoDevices.hasMemcpyWithStream = false ∧
      rtTwoDevices.memcpyAsyncStatus = 0 ∧
      (memcpy_and_sync rtTwoDevices 1 2 64 0 7 warnState).1.hookCount =
        warnState.hookCount + 1 ∧
      (memcpy_and_sync rtTwoDevices 1 2 64 0 7 warnState).2 =
        Except.ok () :=
  ⟨rfl, rfl,
    (warn_level_fires_hook_and_completes rtTwoDevices 1 2 64 0 7 warnState
      rfl).1,
    (warn_level_fires_hook_and_completes rtTwoDevices 1 2 64 0 7 warnState
      rfl).2.2.2.1 rfl,
    rfl, rfl,
    (warn_level_fires_hook_and_completes rtTwoDevices 1 2 64 0 7 warnState
      rfl).2.2.2.2.1,
    ((warn_level_fires_hook_and_completes rtTwoDevices 1 2 64 0 7 warnState
      rfl).2.2.2.2.2.2.2 rfl rfl).2 rfl⟩

/-- C7 witness: the non-success status 700. -/
theorem cuda_check_witness :
    (700 : Nat) ≠ 0 ∧
      C10_CUDA_CHECK rtTwoDevices.describe 700 =
        Except.error (CudaError.runtimeError 700
          ("CUDA error: " ++ rtTwoDevices.describe 700)) ∧
      0 < ("CUDA error: " ++ rtTwoDevices.describe 700).length :=
  ⟨by decide,
    ((cuda_check_translates_status rtTwoDevices.describe 700).2
      (by decide)).1,
    ((cuda_check_translates_status rtTwoDevices.describe 700).2
      (by decide)).2⟩

/-- C8 witness: the two-call path (no combined primitive, copy
succeeds) under the default level. -/
theorem memcpy_call_pattern_witness :
    initState.warning.get_sync_warning_level ≠ SyncWarningLevel.L_ERROR ∧
      rtTwoDevices.hasMemcpyWithStream = false ∧
      rtTwoDevices.memcpyAsyncStatus = 0 ∧
      (memcpy_and_sync rtTwoDevices 1 2 64 0 7 initState).1.trace =
        initState.trace ++ [RuntimeCall.memcpyAsync 1 2 64 0 7,
          RuntimeCall.streamSynchronize 7] :=
  ⟨by decide, rfl, rfl,
    ((memcpy_and_sync_call_pattern rtTwoDevices 1 2 64 0 7 initState
      (by decide)).2.1 rfl rfl).1⟩

/-- C9 witness: healthy runtime, any state — the device synchronize
succeeds. -/
theorem device_synchronize_witness :
    rtTwoDevices.deviceSynchronizeStatus = 0 ∧
      (device_synchronize rtTwoDevices errState).2 = Except.ok () :=
  ⟨rfl,
    (device_synchronize_bypasses_warning_state rtTwoDevices errState).2.2.2
      rfl⟩

end C10Cuda
